import Mathlib

/-!
Verification of `tray.py` (illust-notify): a tray badge renderer and a
small tray controller.

The embedding is shallow:

* The external font backend (`PIL.ImageFont` / FreeType) is a parameter
  `FontEnv`: which point sizes load, and the text metrics each loaded
  font reports.  The one fact of the backend the code's shrink loop
  relies on is recorded as the field `loads_nonpos`: FreeType refuses
  nonpositive pixel sizes (`ImageFont.truetype(..., s)` raises `IOError`
  for `s <= 0`), which bounds the loop.
* An image (`PIL.Image`) is represented by the data the code puts into
  it: dimensions, background fill, and the single text-draw call
  (text, font size, fill color, position).  `create_image` returns
  `Except String Img`; `Except.error` models an uncaught Python
  exception escaping the function.
* The controller handlers (`click`, `quit`, the `Hide`/`Show` lambdas)
  are modelled as functions from the module state (the single global
  `callback` slot, callbacks identified by `Nat` ids) to an ordered
  event trace: prints, callback invocations, and a final re-raised
  exception, in the order Python produces them.  `try/finally` is
  translated by placing the `finally` events before the propagated
  exception on every path.
-/

namespace Tray

/-- The fixed URL opened by the `Go...` default action (`tray.py` line 7). -/
def url : String := "https://www.pixiv.net/bookmark_new_illust.php"

/-- Model of Python's `str` on `int` (`tray.py` line 15, `text = str(num)`):
the sign-prefixed decimal representation. -/
def pyStr (num : Int) : String :=
  if num < 0 then "-" ++ toString num.natAbs else toString num.natAbs

/-- A text bounding box as returned by `font.getbbox` / `draw.textbbox`:
the 4-tuple `(x0, y0, x1, y1)`. -/
structure BBox where
  x0 : Int
  y0 : Int
  x1 : Int
  y1 : Int
deriving DecidableEq

/-- The external font backend: which sizes `ImageFont.truetype('arialbd.ttf', s)`
loads, and the metrics of the loaded fonts.

`bboxRight s t` is `font.getbbox(t)[2]` for the font loaded at size `s`
(used in the shrink-loop condition, `tray.py` line 20); `textbbox s t` is
`draw.textbbox((0, 0), t, font=font)` for that font (line 27).

`loads_nonpos` records the FreeType behavior the loop's termination rests
on: a nonpositive point size never loads (`truetype` raises `IOError`). -/
structure FontEnv where
  loads : Int → Bool
  bboxRight : Int → String → Int
  textbbox : Int → String → BBox
  loads_nonpos : ∀ s : Int, s ≤ 0 → loads s = false

/-- The `while` loop of `create_image` (`tray.py` lines 20-25):

    while font.getbbox(text)[2] > width:
        font_size -= 1
        try:
            font = ImageFont.truetype('arialbd.ttf', font_size)
        except IOError:
            break

Input `fontSize` is the size of the currently loaded font.  Returns the
size of the font held in `font` when the loop exits, paired with `true`
iff the loop exited through the `except IOError: break` arm (so `font`
stays at the last size that loaded).  Termination: the size strictly
decreases and, by `loads_nonpos`, a recursive call only happens at a
positive size. -/
def shrink (env : FontEnv) (text : String) (width : Int) (fontSize : Int) :
    Int × Bool :=
  if env.bboxRight fontSize text > width then
    if h : env.loads (fontSize - 1) then
      shrink env text width (fontSize - 1)
    else
      (fontSize, true)
  else
    (fontSize, false)
termination_by fontSize.toNat
decreasing_by
  have hpos : 0 < fontSize - 1 := by
    by_contra hle
    rw [env.loads_nonpos (fontSize - 1) (by omega)] at h
    exact Bool.false_ne_true h
  omega

/-- The image `create_image` builds and returns: a `width`×`height` canvas
filled with `bg`, with `text` drawn at `(x, y)` in color `fg` using the
font loaded at size `fontSize` (`tray.py` lines 13-36). -/
structure Img where
  width : Int
  height : Int
  bg : String
  fg : String
  text : String
  fontSize : Int
  x : ℚ
  y : ℚ
deriving DecidableEq

/-- `create_image(width, height, num, fg_color, bg_color)` (`tray.py`
lines 12-36).  The initial `ImageFont.truetype('arialbd.ttf', font_size)`
on line 18 sits outside any `try`, so its failure escapes the function:
that is the `Except.error` branch.  `int(height * 0.8)` is rendered as
`height * 8 / 10` (integer division); for the height 64 used by this
module both give 51. -/
def create_image (env : FontEnv) (width height : Int) (num : Int)
    (fg_color bg_color : String) : Except String Img :=
  let text := pyStr num
  let font_size := height * 8 / 10
  if env.loads font_size then
    let r := shrink env text width font_size
    let bbox := env.textbbox r.1 text
    let text_width := bbox.x1 - bbox.x0
    let text_height := bbox.y1 - bbox.y0
    let x : ℚ := ((width : ℚ) - (text_width : ℚ)) / 2
    let y : ℚ := ((height : ℚ) - (text_height : ℚ)) / 2 - (bbox.y0 : ℚ)
    Except.ok { width := width, height := height, bg := bg_color,
                fg := fg_color, text := text, fontSize := r.1, x := x, y := y }
  else
    Except.error "IOError: cannot load arialbd.ttf at the initial size"

/-- `create_icon_image(num)` (`tray.py` lines 39-40). -/
def create_icon_image (env : FontEnv) (num : Int) : Except String Img :=
  create_image env 64 64 num "white" "#0099ff"

/-- `update(num)` (`tray.py` lines 75-76): re-renders the badge and
assigns it as the icon's displayed image.  Modelled as returning the
image assigned to `icon.icon`; an error is a Python exception escaping
`update`. -/
def update (env : FontEnv) (num : Int) : Except String Img :=
  create_icon_image env num

/-- The module-level mutable state of `tray.py`: the single global
`callback` slot (line 8), `None` until `start` supplies a callback.
Callbacks are identified by `Nat` ids. -/
structure TrayState where
  callback : Option Nat
deriving DecidableEq

/-- Exceptions a handler can re-raise. -/
inductive PyExn where
  /-- an exception raised by `webbrowser.open` -/
  | openErr
  /-- an exception raised by `icon.stop()` -/
  | stopErr
deriving DecidableEq

/-- One observable event of a handler run, in program order. -/
inductive Ev where
  /-- `print(...)` output -/
  | eprint (msg : String)
  /-- an invocation of the callback with id `cb`; `arg = none` is
  `callback()`, `arg = some k` is `callback(k)` -/
  | ecall (cb : Nat) (arg : Option Nat)
  /-- an exception propagating out of the handler -/
  | eraise (e : PyExn)
deriving DecidableEq

/-- The callback invocations of a trace, in order. -/
def callsOf (t : List Ev) : List (Nat × Option Nat) :=
  t.filterMap fun e =>
    match e with
    | .ecall c a => some (c, a)
    | _ => none

/-- `if callback: callback(...)` — invokes the stored callback when the
slot is set (a Python function object is always truthy, `None` falsy). -/
def callCallback (s : TrayState) (arg : Option Nat) : List Ev :=
  match s.callback with
  | some c => [.ecall c arg]
  | none => []

/-- The three outcomes of `webbrowser.open(url)`: returns `True`,
returns `False`, or raises. -/
inductive OpenOutcome where
  | ok
  | fail
  | opRaises
deriving DecidableEq

/-- `click(_icon, _item)` (`tray.py` lines 43-51):

    try:
        if webbrowser.open(url):
            print('Opened', url)
        else:
            print('Failed to open', url)
    finally:
        if callback:
            callback(1)

On every path the `finally` block runs after the `try` body's prints and
before any exception propagates. -/
def click (o : OpenOutcome) (s : TrayState) : List Ev :=
  (match o with
   | .ok => [.eprint ("Opened " ++ url)]
   | .fail => [.eprint ("Failed to open " ++ url)]
   | .opRaises => [])
  ++ callCallback s (some 1)
  ++ (match o with
      | .opRaises => [.eraise .openErr]
      | _ => [])

/-- `quit(icon, _item)` (`tray.py` lines 54-60):

    try:
        print('Quitting...')
        icon.stop()
    finally:
        if callback:
            callback()

`stopRaises` says whether `icon.stop()` raises; if it does, the
exception propagates after the `finally` block has invoked the
callback. -/
def quit (stopRaises : Bool) (s : TrayState) : List Ev :=
  [.eprint "Quitting..."]
  ++ callCallback s none
  ++ (if stopRaises then [.eraise .stopErr] else [])

/-- The `Hide` menu item's handler (`tray.py` line 68):
`lambda _, __: callback and callback(2)`. -/
def hideAction (s : TrayState) : List Ev :=
  callCallback s (some 2)

/-- The `Show` menu item's handler (`tray.py` line 69):
`lambda _, __: callback and callback(3)`. -/
def showAction (s : TrayState) : List Ev :=
  callCallback s (some 3)

/-- `start(cb=None)` (`tray.py` lines 79-83):

    global callback
    if cb:
        callback = cb
    icon.run_detached()

Only the callback-slot effect is modelled; `run_detached` hands control
to the external toolkit.  A supplied function object is always truthy,
so `some c` always overwrites; `none` leaves the slot unchanged. -/
def start (cb : Option Nat) (s : TrayState) : TrayState :=
  match cb with
  | some c => { s with callback := some c }
  | none => s

/-- A concrete font backend used to instantiate hypotheses: every
positive size loads, and a font of size `s` measures `s` wide. -/
def testEnv : FontEnv where
  loads := fun s => decide (0 < s)
  bboxRight := fun s _ => s
  textbbox := fun s t => ⟨0, 0, s * (t.length : Int), s⟩
  loads_nonpos := by
    intro s hs
    simp only [decide_eq_false_iff_not, not_lt]
    exact hs

/-! ### Helper lemmas about the shrink loop -/

/-- Every size the loop returns was successfully loaded: the loop starts
from a loaded font and, on the `break` arm, keeps the previously loaded
one. -/
theorem shrink_loads (env : FontEnv) (text : String) (width : Int)
    (fontSize : Int) (h : env.loads fontSize = true) :
    env.loads (shrink env text width fontSize).1 = true := by
  induction fontSize using shrink.induct env text width with
  | case1 fs hgt hld ih =>
    rw [shrink, if_pos hgt, dif_pos hld]
    exact ih hld
  | case2 fs hgt hld =>
    rw [shrink, if_pos hgt, dif_neg hld]
    exact h
  | case3 fs hfit =>
    rw [shrink, if_neg hfit]
    exact h

/-- If the loop exits without a load failure, the returned font fits:
its measured right edge is at most the image width. -/
theorem shrink_fit (env : FontEnv) (text : String) (width : Int)
    (fontSize : Int)
    (h : (shrink env text width fontSize).2 = false) :
    env.bboxRight (shrink env text width fontSize).1 text ≤ width := by
  induction fontSize using shrink.induct env text width with
  | case1 fs hgt hld ih =>
    rw [shrink, if_pos hgt, dif_pos hld] at h ⊢
    exact ih h
  | case2 fs hgt hld =>
    rw [shrink, if_pos hgt, dif_neg hld] at h
    simp at h
  | case3 fs hfit =>
    rw [shrink, if_neg hfit]
    exact not_lt.mp hfit

/-- When the initial font load (`tray.py` line 18) succeeds,
`create_image` returns an image with the requested dimensions, the
decimal text of `num`, and the font size the shrink loop settled on. -/
theorem create_image_ok (env : FontEnv) (width height num : Int)
    (fg bg : String) (hload : env.loads (height * 8 / 10) = true) :
    ∃ img : Img, create_image env width height num fg bg = Except.ok img ∧
      img.width = width ∧ img.height = height ∧ img.text = pyStr num ∧
      img.fontSize = (shrink env (pyStr num) width (height * 8 / 10)).1 := by
  simp only [create_image, hload, if_true]
  exact ⟨_, rfl, rfl, rfl, rfl, rfl⟩

/-! ### Claim theorems -/

/-- C1: Whenever a callback is registered, `click` (the open handler)
invokes it exactly once, with code 1, in every outcome of
`webbrowser.open`: success, failure, or a raised exception.  The
`finally` block runs on every path. -/
theorem C1_click_always_notifies_once (s : TrayState) (c : Nat)
    (o : OpenOutcome) (h : s.callback = some c) :
    callsOf (click o s) = [(c, some 1)] := by
  cases o <;> simp [click, callsOf, callCallback, h]

/-- C1 witness: a concrete state with callback id 5, at the raising
outcome. -/
theorem C1_witness :
    callsOf (click .opRaises ⟨some 5⟩) = [(5, some 1)] :=
  C1_click_always_notifies_once ⟨some 5⟩ 5 .opRaises rfl

/-- C2: Whenever a callback is registered, `quit` invokes it exactly
once (with no arguments), whether or not `icon.stop()` raises; when it
does raise, the full event trace shows the callback invocation
happening before the exception propagates out of the handler. -/
theorem C2_quit_always_cleans_up (s : TrayState) (c : Nat)
    (h : s.callback = some c) :
    (∀ stopRaises : Bool, callsOf (quit stopRaises s) = [(c, none)]) ∧
    quit true s = [.eprint "Quitting...", .ecall c none, .eraise .stopErr] := by
  constructor
  · intro stopRaises
    cases stopRaises <;> simp [quit, callsOf, callCallback, h]
  · simp [quit, callCallback, h]

/-- C2 witness: a concrete state with callback id 7. -/
theorem C2_witness :
    (∀ stopRaises : Bool, callsOf (quit stopRaises ⟨some 7⟩) = [(7, none)]) ∧
    quit true ⟨some 7⟩ =
      [.eprint "Quitting...", .ecall 7 none, .eraise .stopErr] :=
  C2_quit_always_cleans_up ⟨some 7⟩ 7 rfl

/-- C5 counterexample (negation of the claimed shape): the module does
not hold two separate callback references.  There is no state in which
the reference `quit` invokes (the claimed cleanup callback) differs from
the reference `click` invokes with a code (the claimed notify
callback): both handlers read the one global `callback` slot. -/
theorem C5_counterexample :
    ¬ ∃ (s : TrayState) (a b : Nat), a ≠ b ∧
      callsOf (quit false s) = [(a, none)] ∧
      callsOf (click .ok s) = [(b, some 1)] := by
  rintro ⟨s, a, b, hne, hq, hc⟩
  cases hcb : s.callback with
  | none => simp [quit, callsOf, callCallback, hcb] at hq
  | some c =>
    simp [quit, callsOf, callCallback, hcb] at hq
    simp [click, callsOf, callCallback, hcb] at hc
    exact hne (hq.symm.trans hc)

/-- C5 amended: `start` registers a single callback reference, and the
controller invokes that same reference with no arguments on quit and
with an integer code (1 for open, 2 for hide, 3 for show) on the menu
actions. -/
theorem C5_single_callback_both_roles (s₀ : TrayState) (c : Nat)
    (stopRaises : Bool) (o : OpenOutcome) :
    (start (some c) s₀).callback = some c ∧
    callsOf (quit stopRaises (start (some c) s₀)) = [(c, none)] ∧
    callsOf (click o (start (some c) s₀)) = [(c, some 1)] ∧
    callsOf (hideAction (start (some c) s₀)) = [(c, some 2)] ∧
    callsOf (showAction (start (some c) s₀)) = [(c, some 3)] := by
  refine ⟨rfl, ?_, ?_, ?_, ?_⟩
  · cases stopRaises <;>
      simp [quit, callsOf, callCallback, start]
  · cases o <;> simp [click, callsOf, callCallback, start]
  · simp [hideAction, callsOf, callCallback, start]
  · simp [showAction, callsOf, callCallback, start]

/-- C6: a supplied callback is recorded, overwriting whatever was stored
before; in particular a second `start` call with a new callback leaves
exactly the newly supplied value in the slot. -/
theorem C6_start_overwrites (s : TrayState) (c₁ c₂ : Nat) :
    (start (some c₁) s).callback = some c₁ ∧
    (start (some c₂) (start (some c₁) s)).callback = some c₂ := ⟨rfl, rfl⟩

/-- C7: with a callback registered, the `Hide` item invokes it with
code 2, the `Show` item with code 3, and the default `Go...` (open)
action with code 1, each unconditionally and exactly once; the three
codes are pairwise distinct. -/
theorem C7_menu_codes (s : TrayState) (c : Nat) (h : s.callback = some c) :
    callsOf (hideAction s) = [(c, some 2)] ∧
    callsOf (showAction s) = [(c, some 3)] ∧
    (∀ o : OpenOutcome, callsOf (click o s) = [(c, some 1)]) ∧
    ((1 : Nat) ≠ 2 ∧ (1 : Nat) ≠ 3 ∧ (2 : Nat) ≠ 3) := by
  refine ⟨?_, ?_, ?_, by decide⟩
  · simp [hideAction, callsOf, callCallback, h]
  · simp [showAction, callsOf, callCallback, h]
  · intro o; cases o <;> simp [click, callsOf, callCallback, h]

/-- C7 witness: a concrete state with callback id 9. -/
theorem C7_witness :
    callsOf (hideAction ⟨some 9⟩) = [(9, some 2)] ∧
    callsOf (showAction ⟨some 9⟩) = [(9, some 3)] ∧
    (∀ o : OpenOutcome, callsOf (click o ⟨some 9⟩) = [(9, some 1)]) ∧
    ((1 : Nat) ≠ 2 ∧ (1 : Nat) ≠ 3 ∧ (2 : Nat) ≠ 3) :=
  C7_menu_codes ⟨some 9⟩ 9 rfl

/-- C3: for every non-negative count, `create_image` raises no error:
given that the initial font load (outside the `try`) succeeds, the
shrink loop — a total function here, its termination justified by the
backend fact `loads_nonpos` — finishes at a size that was successfully
loaded (load failure at a smaller size freezes the last loaded font),
and an image is produced. -/
theorem C3_renderer_never_fails (env : FontEnv) (width height num : Int)
    (fg bg : String) (hnum : 0 ≤ num)
    (hload : env.loads (height * 8 / 10) = true) :
    ∃ img : Img, create_image env width height num fg bg = Except.ok img ∧
      env.loads img.fontSize = true := by
  obtain ⟨img, heq, -, -, -, hfs⟩ :=
    create_image_ok env width height num fg bg hload
  refine ⟨img, heq, ?_⟩
  rw [hfs]
  exact shrink_loads env (pyStr num) width _ hload

/-- C3 witness: the concrete backend at count 0. -/
theorem C3_witness :
    ∃ img : Img, create_image testEnv 64 64 0 "white" "#0099ff" =
      Except.ok img ∧ testEnv.loads img.fontSize = true :=
  C3_renderer_never_fails testEnv 64 64 0 "white" "#0099ff"
    (by decide) (by decide)

/-- C4: when the shrink loop of the 64×64 badge exits without a font
load failure (every requested size loaded), the font it settles on
measures at most 64 pixels wide: the rendered text width does not
exceed the image width. -/
theorem C4_shrink_loop_fits (env : FontEnv) (num : Int)
    (hload : env.loads ((64 : Int) * 8 / 10) = true)
    (hnb : (shrink env (pyStr num) 64 ((64 : Int) * 8 / 10)).2 = false) :
    ∃ img : Img, create_icon_image env num = Except.ok img ∧
      env.bboxRight img.fontSize (pyStr num) ≤ 64 := by
  obtain ⟨img, heq, -, -, -, hfs⟩ :=
    create_image_ok env 64 64 num "white" "#0099ff" hload
  refine ⟨img, heq, ?_⟩
  rw [hfs]
  exact shrink_fit env (pyStr num) 64 _ hnb

/-- C4 witness: the concrete backend at count 42, where the initial
size 51 already fits in 64 pixels and the loop exits at once. -/
theorem C4_witness :
    ∃ img : Img, create_icon_image testEnv 42 = Except.ok img ∧
      testEnv.bboxRight img.fontSize (pyStr 42) ≤ 64 :=
  C4_shrink_loop_fits testEnv 42 (by decide)
    (by rw [shrink]; norm_num [testEnv])

/-- C8: for every non-negative count, however many digits, the badge
`create_icon_image` builds is exactly 64×64 pixels (given the initial
font load succeeds). -/
theorem C8_badge_is_64x64 (env : FontEnv) (num : Int) (hnum : 0 ≤ num)
    (hload : env.loads ((64 : Int) * 8 / 10) = true) :
    ∃ img : Img, create_icon_image env num = Except.ok img ∧
      img.width = 64 ∧ img.height = 64 := by
  obtain ⟨img, heq, hw, hh, -, -⟩ :=
    create_image_ok env 64 64 num "white" "#0099ff" hload
  exact ⟨img, heq, hw, hh⟩

/-- C8 witness: the concrete backend at the five-digit count 12345. -/
theorem C8_witness :
    ∃ img : Img, create_icon_image testEnv 12345 = Except.ok img ∧
      img.width = 64 ∧ img.height = 64 :=
  C8_badge_is_64x64 testEnv 12345 (by decide) (by decide)

/-- C9: the renderer is deterministic — two calls of `create_image` on
identical argument tuples (same backend, dimensions, count and colors)
produce identical images: the function is pure, all its inputs are in
its arguments. -/
theorem C9_renderer_deterministic (env : FontEnv) (width height num : Int)
    (fg bg : String) (r₁ r₂ : Except String Img)
    (h₁ : r₁ = create_image env width height num fg bg)
    (h₂ : r₂ = create_image env width height num fg bg) :
    r₁ = r₂ :=
  h₁.trans h₂.symm

/-- C9 witness: two calls at a concrete argument tuple. -/
theorem C9_witness :
    create_image testEnv 64 64 1 "white" "#0099ff" =
      create_image testEnv 64 64 1 "white" "#0099ff" :=
  C9_renderer_deterministic testEnv 64 64 1 "white" "#0099ff" _ _ rfl rfl

/-- C10: the renderer also accepts every negative count: `create_image`
(and hence `update`) proceeds without raising and renders the
sign-prefixed decimal text of the count. -/
theorem C10_negative_counts_accepted (env : FontEnv) (num : Int)
    (hneg : num < 0) (hload : env.loads ((64 : Int) * 8 / 10) = true) :
    ∃ img : Img, create_icon_image env num = Except.ok img ∧
      update env num = Except.ok img ∧
      img.text = pyStr num ∧
      pyStr num = "-" ++ toString num.natAbs := by
  obtain ⟨img, heq, -, -, ht, -⟩ :=
    create_image_ok env 64 64 num "white" "#0099ff" hload
  exact ⟨img, heq, heq, ht, by simp [pyStr, hneg]⟩

/-- C10 witness: the concrete backend at count -5. -/
theorem C10_witness :
    ∃ img : Img, create_icon_image testEnv (-5) = Except.ok img ∧
      update testEnv (-5) = Except.ok img ∧
      img.text = pyStr (-5) ∧
      pyStr (-5) = "-" ++ toString (-5 : Int).natAbs :=
  C10_negative_counts_accepted testEnv (-5) (by decide) (by decide)

end Tray
